import Mathlib

/-!
Verification of the ekuiper runtime core: fault-isolation wrapper, error
drain, stateful analytic functions (changed_col, had_changed, lag, latest)
and the sink execution node, shallowly embedded from the Go sources.
-/

set_option maxRecDepth 4000

/-- Go error values as they occur in this code base: plain errors made by
`errors.New`/`fmt.Errorf`, I/O-class errors recognised by `errorx.IsIOError`,
and the specialized EOF error made by `errorx.NewEOF`. -/
inductive GoErr where
  | plain (msg : String)
  | ioErr (msg : String)
  | eofErr (msg : String)
  deriving DecidableEq, Repr

/-- `errorx.IsIOError`: the error-classification predicate used to decide
retry eligibility in the sink node. -/
def isIOError : GoErr → Bool
  | .ioErr _ => true
  | _ => false

/-- Message carried by a Go error (`err.Error()` / `%v` formatting). -/
def GoErr.msg : GoErr → String
  | .plain m => m
  | .ioErr m => m
  | .eofErr m => m

/-- A Go `chan error` with its buffer: `buf` holds the queued elements
(`none` is a nil error value), `chcap` is the channel capacity. A
non-blocking send with no ready receiver succeeds exactly when the buffer
has free capacity. -/
structure ErrChannel where
  chcap : Nat
  buf : List (Option GoErr)
  deriving DecidableEq, Repr

/-- Non-blocking send on a channel (`select { case ch <- e: default: }`
with no ready receiver): deposits `e` if the buffer has room, otherwise
leaves the channel unchanged. -/
def trySend (ch : ErrChannel) (e : Option GoErr) : ErrChannel :=
  if ch.buf.length < ch.chcap then { ch with buf := ch.buf ++ [e] } else ch

/-- `infra.DrainError(ctx, err, errCh)` from the Go source: logs the error
when it is non-nil (to the context logger when `ctx != nil`, else the
global logger), then always performs a single non-blocking send of `err`
on `errCh`. Returns the emitted log lines and the updated channel. -/
def drainError (hasCtx : Bool) (err : Option GoErr) (errCh : ErrChannel) :
    List String × ErrChannel :=
  let logs : List String :=
    match err with
    | some e =>
        if hasCtx then ["runtime error from caller: " ++ e.msg]
        else ["runtime error: " ++ e.msg]
    | none => []
  (logs, trySend errCh err)

/-- Payload of a Go `panic`, as discriminated by the type switch in
`infra.SafeRun`: a string, an error value, or anything else (carried here
as its `%#v` Go-syntax formatting, which is all `SafeRun` uses of it). -/
inductive PanicPayload where
  | pstr (s : String)
  | perr (e : GoErr)
  | pother (goRepr : String)
  deriving DecidableEq, Repr

/-- Observable outcome of running the execution unit passed to `SafeRun`:
either it returns normally (with a possibly-nil error) or it panics with
a payload. -/
inductive UnitOutcome where
  | ret (err : Option GoErr)
  | panicked (p : PanicPayload)
  deriving DecidableEq, Repr

/-- `infra.SafeRun(fn)` from the Go source: runs the unit; a recovered
panic is converted by the type switch — string payloads via `errors.New`,
error payloads passed through unchanged, anything else via
`fmt.Errorf("%#v", x)` — and a normal return passes its error through. -/
def SafeRun : UnitOutcome → Option GoErr
  | .ret e => e
  | .panicked (.pstr s) => some (.plain s)
  | .panicked (.perr e) => some e
  | .panicked (.pother r) => some (.plain r)

/-- C1 counterexample: `DrainError(ctx, nil, errCh)` is NOT a no-op on the
channel. On an empty one-slot channel the unconditional non-blocking send
deposits a nil error value, so the channel contents change. (Nothing is
logged, as the claim says.) -/
theorem c1_nil_drain_counterexample :
    (drainError true none ⟨1, []⟩).2.buf ≠ ([] : List (Option GoErr)) := by
  decide

/-- C1 (amended): `DrainError(ctx, nil, errCh)` logs nothing, but still
performs the non-blocking send, so a nil value is deposited on the channel
whenever its buffer has free capacity (and the channel is left unchanged
otherwise); the call never blocks. -/
theorem c1_nil_drain_amended (hasCtx : Bool) (ch : ErrChannel) :
    (drainError hasCtx none ch).1 = [] ∧
    (drainError hasCtx none ch).2.buf =
      (if ch.buf.length < ch.chcap then ch.buf ++ [none] else ch.buf) := by
  constructor
  · rfl
  · simp only [drainError, trySend]
    split <;> rfl

/-- C4: `SafeRun` converts outcomes exactly as specified: a string panic
payload becomes a plain error with that message, an error payload is
returned exactly, any other payload is formatted via its Go-syntax default
representation, and a normal return passes its error through untouched. -/
theorem c4_saferun_conversion :
    (∀ e : Option GoErr, SafeRun (.ret e) = e) ∧
    (∀ s : String, SafeRun (.panicked (.pstr s)) = some (.plain s)) ∧
    (∀ e : GoErr, SafeRun (.panicked (.perr e)) = some e) ∧
    (∀ r : String, SafeRun (.panicked (.pother r)) = some (.plain r)) := by
  refine ⟨fun e => rfl, fun s => rfl, fun e => rfl, fun r => rfl⟩

/-- Go `interface{}` values as they arrive as arguments of the analytic
functions: nil, booleans, integers, strings. (Row values are scalars; the
`*ringqueue` that `lag` keeps in its state never occurs as an argument and
is modelled separately in `StateEntry`.) -/
inductive Value where
  | vnull
  | vbool (b : Bool)
  | vint (n : Int)
  | vstr (s : String)
  deriving DecidableEq, Repr

/-- Go `%v` formatting of a value, used in the error messages. -/
def Value.vfmt : Value → String
  | .vnull => "<nil>"
  | .vbool true => "true"
  | .vbool false => "false"
  | .vint n => toString n
  | .vstr s => s

/-- One slot of the per-key state store (a Go `interface{}`): either a
plain value (`se Value.vnull` is Go nil, also what a never-written key
reads as) or the `*ringqueue` stored by `lag`, carried as capacity plus
contents, oldest first. `reflect.DeepEqual` on state entries is structural
equality, which `DecidableEq` provides. -/
inductive StateEntry where
  | se (v : Value)
  | seq (rqcap : Nat) (rqdata : List Value)
  deriving DecidableEq, Repr

/-- The per-key state capability of `api.FunctionContext`: the store
(missing keys read as Go nil), plus error injection for `GetState` and
`PutState` (`none` means the operation succeeds). -/
structure FunctionContext where
  state : String → StateEntry
  getErr : String → Option String
  putErr : String → Option String

/-- `ctx.GetState(key)`: either the injected error or the stored value
(nil when the key was never written, as in Go). -/
def getState (ctx : FunctionContext) (key : String) :
    Except String StateEntry :=
  match ctx.getErr key with
  | some m => .error m
  | none => .ok (ctx.state key)

/-- `ctx.PutState(key, v)`: either the injected error (store unchanged) or
the updated context. -/
def putState (ctx : FunctionContext) (key : String) (v : StateEntry) :
    Except String FunctionContext :=
  match ctx.putErr key with
  | some m => .error m
  | none =>
      .ok { ctx with state := fun k => if k = key then v else ctx.state k }

/-- The first component of a Go `(interface{}, bool)` function return:
either a data value, a `*ringqueue` read back from state (only reachable
through `latest` on a key that holds a queue), or an error value. -/
inductive RVal where
  | rdata (v : Value)
  | rqueue (rqcap : Nat) (rqdata : List Value)
  | errv (e : GoErr)
  deriving DecidableEq, Repr

/-- Observable result of one `exec` invocation: a returned pair
`(value-or-error, emit flag)`, or a runtime panic (failed unchecked type
assertion / out-of-range index). -/
inductive ExecOut where
  | ret (v : RVal) (emit : Bool)
  | panik
  deriving DecidableEq, Repr

/-- True exactly when the invocation returned an error value paired with
`emit = false`. -/
def isErrFalse : ExecOut → Bool
  | .ret (.errv _) false => true
  | _ => false

/-- Go `args[len(args)-k]`: `none` models the index-out-of-range panic
when the list is shorter than `k`. -/
def argFromEnd (args : List Value) (k : Nat) : Option Value :=
  if args.length < k then none else args.get? (args.length - k)

/-- Modelled from the spec: the Circular State Buffer (`ringqueue`), whose
implementation file is not among the sources. Per §4.3 it is a
fixed-capacity FIFO, represented here as capacity plus contents (oldest
first). `new(capacity)` allocates `capacity` empty (nil) slots. -/
def rqNew (n : Nat) : Nat × List Value :=
  (n, List.replicate n Value.vnull)

/-- Modelled from the spec: `fill(value)` sets every slot to `value`. -/
def rqFill (q : Nat × List Value) (v : Value) : Nat × List Value :=
  (q.1, List.replicate q.2.length v)

/-- Modelled from the spec: `peek()` returns the oldest value without
mutating state. -/
def rqPeek (q : Nat × List Value) : Value :=
  q.2.headD Value.vnull

/-- Modelled from the spec: `fetch()` evicts and returns the oldest value,
the lower-level half of an eviction-then-append pair. -/
def rqFetch (q : Nat × List Value) : Value × (Nat × List Value) :=
  (q.2.headD Value.vnull, (q.1, q.2.tail))

/-- Modelled from the spec: `append(value)` inserts `value` as newest and,
when the buffer is at capacity, evicts and returns the oldest value. -/
def rqAppend (q : Nat × List Value) (v : Value) :
    Option Value × (Nat × List Value) :=
  if q.2.length < q.1 then (none, (q.1, q.2 ++ [v]))
  else (q.2.head?, (q.1, q.2.tail ++ [v]))

/-- `changed_col` exec from `funcs_analytic.go`: argument layout is
`[ignoreNull, value, validity, key]` (the framework appends the validity
flag and the partition key). Emits the value only when it differs (deep
equality) from the stored state, updating the state then. -/
def changedColExec (ctx : FunctionContext) (args : List Value) :
    ExecOut × FunctionContext :=
  match args.get? 0 with
  | none => (.panik, ctx)
  | some a0 =>
    match a0 with
    | .vbool ignoreNull =>
      -- `if ignoreNull && args[1] == nil { return nil, true }`
      -- (short-circuit: args[1] is only read when ignoreNull is true)
      if ignoreNull ∧ args.get? 1 = some Value.vnull then
        (.ret (.rdata .vnull) true, ctx)
      else if ignoreNull ∧ args.get? 1 = none then (.panik, ctx)
      else
        match argFromEnd args 2 with
        | none => (.panik, ctx)
        | some aw =>
          match aw with
          | .vbool validData =>
            if validData = false then (.ret (.rdata .vnull) true, ctx)
            else
              match argFromEnd args 1 with
              | some (.vstr key) =>
                (match getState ctx key with
                 | .error m => (.ret (.errv (.plain m)) false, ctx)
                 | .ok lv =>
                   match args.get? 1 with
                   | none => (.panik, ctx)
                   | some a1 =>
                     -- `!reflect.DeepEqual(args[1], lv)`
                     if StateEntry.se a1 ≠ lv then
                       match putState ctx key (.se a1) with
                       | .error m => (.ret (.errv (.plain m)) false, ctx)
                       | .ok ctx1 => (.ret (.rdata a1) true, ctx1)
                     else (.ret (.rdata .vnull) true, ctx))
              | _ => (.panik, ctx)
          | _ =>
            (.ret (.errv (.plain
              ("when arg is not a bool but got " ++ aw.vfmt))) false, ctx)
    | _ =>
      (.ret (.errv (.plain
        ("first arg is not a bool but got " ++ a0.vfmt))) false, ctx)

/-- Loop body of `had_changed` over positional values `args[1..paraLen)`:
`fuel` is the number of remaining iterations (`paraLen - i`), `result`
the accumulator. State for tracked value `i` lives under `key ++ i`. -/
def hadChangedLoop (ignoreNull : Bool) (key : String) (args : List Value) :
    Nat → Nat → Bool → FunctionContext → ExecOut × FunctionContext
  | 0, _, result, ctx => (.ret (.rdata (.vbool result)) true, ctx)
  | fuel + 1, i, result, ctx =>
    let v := args.getD i Value.vnull
    let k := key ++ toString i
    if ignoreNull ∧ v = Value.vnull then
      hadChangedLoop ignoreNull key args fuel (i + 1) result ctx
    else
      match getState ctx k with
      | .error m =>
          (.ret (.errv (.plain
            ("error getting state for " ++ k ++ ": " ++ m))) false, ctx)
      | .ok lv =>
        -- `!reflect.DeepEqual(v, lv)`
        if StateEntry.se v ≠ lv then
          match putState ctx k (.se v) with
          | .error m =>
              (.ret (.errv (.plain
                ("error setting state for " ++ k ++ ": " ++ m))) false, ctx)
          | .ok ctx1 =>
              hadChangedLoop ignoreNull key args fuel (i + 1) true ctx1
        else hadChangedLoop ignoreNull key args fuel (i + 1) result ctx

/-- `had_changed` exec from `funcs_analytic.go`: argument layout is
`[ignoreNull, value1..valueN, validity, key]`. Returns true when any
tracked value changed (deep equality) since its last recorded value. -/
def hadChangedExec (ctx : FunctionContext) (args : List Value) :
    ExecOut × FunctionContext :=
  let l : Int := (args.length : Int) - 2
  if l ≤ 1 then
    (.ret (.errv (.plain
      ("expect more than one arg but got " ++ toString args.length)))
      false, ctx)
  else
    match argFromEnd args 2 with
    | none => (.panik, ctx)
    | some aw =>
      match aw with
      | .vbool validData =>
        if validData = false then (.ret (.rdata (.vbool false)) true, ctx)
        else
          match args.get? 0 with
          | none => (.panik, ctx)
          | some a0 =>
            match a0 with
            | .vbool ignoreNull =>
              (match argFromEnd args 1 with
               | some (.vstr key) =>
                   hadChangedLoop ignoreNull key args
                     (args.length - 2 - 1) 1 false ctx
               | _ => (.panik, ctx))
            | _ =>
              (.ret (.errv (.plain
                ("first arg is not a bool but got " ++ a0.vfmt))) false, ctx)
      | _ =>
        (.ret (.errv (.plain
          ("when arg is not a bool but got " ++ aw.vfmt))) false, ctx)

/-- Kinds of AST argument expressions, as classified by the `ast.Is*Arg`
predicates used in the `val` validators. -/
inductive ExprKind where
  | numericE
  | timeE
  | stringE
  | boolE
  | fieldE
  | otherE
  deriving DecidableEq, Repr

/-- `had_changed` val from `funcs_analytic.go`: static validation of the
positional argument list (before the framework appends validity and key):
rejects fewer than two arguments and a numeric/time/string first
argument. -/
def hadChangedVal (args : List ExprKind) : Option String :=
  if args.length ≤ 1 then
    some ("expect more than one arg but got " ++ toString args.length)
  else
    match args.getD 0 ExprKind.otherE with
    | .numericE => some "Expect bool type for parameter 1"
    | .timeE => some "Expect bool type for parameter 1"
    | .stringE => some "Expect bool type for parameter 1"
    | _ => none

/-- Tail of `lag` exec shared by the create and reuse branches: peek the
oldest value; when the row is valid and (ignoreNull is off or the value is
non-null) advance the queue (fetch then append) and write it back. The
write-back also reflects Go pointer aliasing: the state's `*ringqueue` is
mutated in place and `PutState` re-stores the same pointer. -/
def lagAdvance (ctx : FunctionContext) (key : String) (rq : Nat × List Value)
    (validData ignoreNull : Bool) (a0 : Value) : ExecOut × FunctionContext :=
  let rtn0 := rqPeek rq
  if validData ∧ (ignoreNull = false ∨ a0 ≠ Value.vnull) then
    let fr := rqFetch rq
    let rq2 := (rqAppend fr.2 a0).2
    match putState ctx key (.seq rq2.1 rq2.2) with
    | .error m =>
        (.ret (.errv (.plain
          ("error setting state for " ++ key ++ ": " ++ m))) false, ctx)
    | .ok ctx2 => (.ret (.rdata fr.1) true, ctx2)
  else (.ret (.rdata rtn0) true, ctx)

/-- `lag` exec from `funcs_analytic.go`: argument layout is
`[value, size?, default?, ignoreNull?, validity, key]` (1–4 positional
arguments). On first invocation for a key the ring queue is created with
`size` slots and pre-filled with the default. (`size.toNat`: Go would
panic on a negative size at `make`; the claims never exercise that.) -/
def lagExec (ctx : FunctionContext) (args : List Value) :
    ExecOut × FunctionContext :=
  let l : Int := (args.length : Int) - 2
  if l < 1 ∨ 4 < l then
    (.ret (.errv (.plain
      ("expect from 1 to 4 args but got " ++ toString l))) false, ctx)
  else
    match argFromEnd args 1 with
    | some (.vstr key) =>
      (match getState ctx key with
       | .error m =>
           (.ret (.errv (.plain
             ("error getting state for " ++ key ++ ": " ++ m))) false, ctx)
       | .ok v =>
         match argFromEnd args 2 with
         | some (.vbool validData) =>
           -- `size, err = cast.ToInt(args[1], cast.STRICT)` when l >= 2
           let sizeRes : Except String Int :=
             if 2 ≤ l then
               match args.getD 1 Value.vnull with
               | .vint n => .ok n
               | other =>
                   .error ("error converting second arg " ++ other.vfmt ++
                     " to int: cannot convert to int")
             else .ok 1
           (match sizeRes with
            | .error m => (.ret (.errv (.plain m)) false, ctx)
            | .ok size =>
              let dftVal : Value :=
                if 3 ≤ l then args.getD 2 Value.vnull else Value.vnull
              let ignRes : Except String Bool :=
                if 4 ≤ l then
                  match args.getD 3 Value.vnull with
                  | .vbool b => .ok b
                  -- the Go message formats args[0], not args[3]
                  | _ =>
                      .error ("The fourth arg is not a bool but got " ++
                        (args.getD 0 Value.vnull).vfmt)
                else .ok true
              match ignRes with
              | .error m => (.ret (.errv (.plain m)) false, ctx)
              | .ok ignoreNull =>
                match v with
                | .se Value.vnull =>
                  -- first time call, create state for lag
                  let rq0 := rqFill (rqNew size.toNat) dftVal
                  (match putState ctx key (.seq rq0.1 rq0.2) with
                   | .error m =>
                       (.ret (.errv (.plain
                         ("error setting state for " ++ key ++ ": " ++ m)))
                         false, ctx)
                   | .ok ctx1 =>
                       lagAdvance ctx1 key rq0 validData ignoreNull
                         (args.getD 0 Value.vnull))
                | .seq c d =>
                    lagAdvance ctx key (c, d) validData ignoreNull
                      (args.getD 0 Value.vnull)
                | .se _ =>
                    -- `rq, _ = v.(*ringqueue)` leaves rq nil: rq.peek() panics
                    (.panik, ctx))
         | some other =>
             (.ret (.errv (.plain
               ("when arg is not a bool but got " ++ other.vfmt))) false, ctx)
         | none => (.panik, ctx))
    | _ => (.panik, ctx)

/-- `latest` exec from `funcs_analytic.go`: argument layout is
`[value, default?, validity, key]` (1–2 positional arguments). Stores and
returns a valid non-null value — discarding any `PutState` error — else
returns the stored value, falling back to the default argument. -/
def latestExec (ctx : FunctionContext) (args : List Value) :
    ExecOut × FunctionContext :=
  let l : Int := (args.length : Int) - 2
  if l ≠ 1 ∧ l ≠ 2 then
    (.ret (.errv (.plain
      ("expect one or two args but got " ++ toString l))) false, ctx)
  else
    match argFromEnd args 1 with
    | some (.vstr key) =>
      (match argFromEnd args 2 with
       | some (.vbool validData) =>
         let a0 := args.getD 0 Value.vnull
         -- notice nil is ignored in latest
         if validData ∧ a0 ≠ Value.vnull then
           -- `ctx.PutState(key, args[0])`: the returned error is discarded
           match putState ctx key (.se a0) with
           | .error _ => (.ret (.rdata a0) true, ctx)
           | .ok ctx1 => (.ret (.rdata a0) true, ctx1)
         else
           match getState ctx key with
           | .error m =>
               (.ret (.errv (.plain
                 ("error getting state for " ++ key ++ ": " ++ m))) false, ctx)
           | .ok (.se Value.vnull) =>
               if l = 2 then (.ret (.rdata (args.getD 1 Value.vnull)) true, ctx)
               else (.ret (.rdata Value.vnull) true, ctx)
           | .ok (.se x) => (.ret (.rdata x) true, ctx)
           | .ok (.seq c d) => (.ret (.rqueue c d) true, ctx)
       | some other =>
           (.ret (.errv (.plain
             ("when arg is not a bool but got " ++ other.vfmt))) false, ctx)
       | none => (.panik, ctx))
    | _ => (.panik, ctx)

/-- A function context with empty state and no state-store faults. -/
def ctxEmpty : FunctionContext :=
  ⟨fun _ => .se .vnull, fun _ => none, fun _ => none⟩

/-- The emit flag of an exec result (a panic never returns one). -/
def ExecOut.emitFlag : ExecOut → Bool
  | .ret _ e => e
  | .panik => false

/-- Whether a value is boolean-typed (Go `.(bool)` succeeds). -/
def isBoolV : Value → Bool
  | .vbool _ => true
  | _ => false

/-- C2 counterexample: `changed_col` with `ignoreNull = true` and a nil
value does NOT suppress emission: it returns nil with emit flag TRUE (the
result is `(nil, true)`, not an emit-suppressed invocation), so "nothing
is emitted" fails; the state is indeed left unchanged. -/
theorem c2_ignore_null_counterexample :
    (changedColExec ctxEmpty
      [.vbool true, .vnull, .vbool true, .vstr "k"]).1.emitFlag = true := by
  decide

/-- C2 (amended): `changed_col` with `ignoreNull = true` and a nil value —
or with validity false — leaves the state untouched and returns a nil
result with emit = true (it emits nil rather than suppressing output). -/
theorem c2_changed_col_amended (ctx : FunctionContext) (ign w : Bool)
    (v : Value) (k : String)
    (h : (ign = true ∧ v = Value.vnull) ∨ w = false) :
    changedColExec ctx [.vbool ign, v, .vbool w, .vstr k] =
      (.ret (.rdata .vnull) true, ctx) := by
  rcases h with ⟨hig, hv⟩ | hw
  · subst hig; subst hv
    simp [changedColExec]
  · subst hw
    by_cases hc : ign = true ∧ v = Value.vnull
    · obtain ⟨hig, hv⟩ := hc
      subst hig; subst hv
      simp [changedColExec]
    · simp [changedColExec, argFromEnd, hc]

/-- C2 witness: the amended statement at a concrete input. -/
theorem c2_changed_col_amended_witness :
    changedColExec ctxEmpty [.vbool true, .vnull, .vbool true, .vstr "k"] =
      (.ret (.rdata .vnull) true, ctxEmpty) :=
  c2_changed_col_amended ctxEmpty true true .vnull "k" (Or.inl ⟨rfl, rfl⟩)

/-- Argument list for the C3 trace: `lag(value, size=2, default=0)` with
validity true and partition key "k". -/
def lagArgs (v : Int) : List Value :=
  [.vint v, .vint 2, .vint 0, .vbool true, .vstr "k"]

/-- C3: starting from empty state, `lag(value, size=2, default=0)` with
validity true on key "k", called with values 10, 20, 30, returns 0, 0, 10
in order: the first call creates the queue pre-filled with the default and
each valid call returns the oldest buffered value, then evicts-and-appends
the new value. -/
theorem c3_lag_trace :
    (lagExec ctxEmpty (lagArgs 10)).1 = .ret (.rdata (.vint 0)) true ∧
    (lagExec (lagExec ctxEmpty (lagArgs 10)).2 (lagArgs 20)).1 =
      .ret (.rdata (.vint 0)) true ∧
    (lagExec (lagExec (lagExec ctxEmpty (lagArgs 10)).2 (lagArgs 20)).2
      (lagArgs 30)).1 = .ret (.rdata (.vint 10)) true := by
  refine ⟨by decide, by decide, by decide⟩

/-- C6 counterexample: `had_changed` with only ONE positional argument
besides the ignoreNull flag (`had_changed(true, 1)` plus the appended
validity and key) is accepted and evaluates normally — it does not return
an arity error, refuting "requires at least 2 positional arguments besides
the flag". -/
theorem c6_arity_counterexample :
    (hadChangedExec ctxEmpty
      [.vbool true, .vint 1, .vbool true, .vstr "k"]).1 =
      .ret (.rdata (.vbool true)) true := by
  decide

/-- C6 (amended): `had_changed` requires at least ONE positional argument
besides the ignoreNull flag: a runtime invocation whose argument list
(including the appended validity flag and key) carries at most one
positional argument returns an arity error without evaluating, and static
validation likewise rejects positional argument lists of length ≤ 1. -/
theorem c6_had_changed_arity_amended :
    (∀ (ctx : FunctionContext) (args : List Value),
       (args.length : Int) - 2 ≤ 1 →
       hadChangedExec ctx args =
         (.ret (.errv (.plain
           ("expect more than one arg but got " ++ toString args.length)))
           false, ctx)) ∧
    (∀ ks : List ExprKind, ks.length ≤ 1 →
       hadChangedVal ks =
         some ("expect more than one arg but got " ++ toString ks.length)) := by
  constructor
  · intro ctx args h
    simp only [hadChangedExec]
    rw [if_pos h]
  · intro ks h
    simp only [hadChangedVal]
    rw [if_pos h]

/-- C6 witness: the amended arity bound at concrete inputs — a runtime
call with one value and no flag-mate, and a one-element validation list. -/
theorem c6_had_changed_arity_amended_witness :
    hadChangedExec ctxEmpty [.vbool true, .vbool true, .vstr "k"] =
      (.ret (.errv (.plain "expect more than one arg but got 3")) false,
        ctxEmpty) ∧
    hadChangedVal [ExprKind.boolE] =
      some "expect more than one arg but got 1" := by
  constructor
  · exact c6_had_changed_arity_amended.1 ctxEmpty
      [.vbool true, .vbool true, .vstr "k"] (by decide)
  · exact c6_had_changed_arity_amended.2 [ExprKind.boolE] (by decide)

/-- C5 counterexample: `changed_col` invoked with a NON-boolean validity
flag but with `ignoreNull = true` and a nil value returns `(nil, true)` —
the early no-op return bypasses the validity type check, so the invocation
does not return `(error, false)` as the claim requires. -/
theorem c5_flag_type_counterexample :
    (changedColExec ctxEmpty
      [.vbool true, .vnull, .vint 42, .vstr "k"]).1 =
      .ret (.rdata .vnull) true ∧
    isErrFalse (changedColExec ctxEmpty
      [.vbool true, .vnull, .vint 42, .vstr "k"]).1 = false := by
  refine ⟨by decide, by decide⟩

/-- C5 (amended): whenever one of the four analytic functions actually
evaluates the type assertion on an expected-boolean argument (the
ignoreNull flag or the validity flag) and the argument is not boolean, it
returns a typed error paired with emit = false, and never panics; but an
early return can bypass the check: `changed_col` with `ignoreNull = true`
and a nil value, and `had_changed` with validity false, return successfully
without inspecting the remaining flag. -/
theorem c5_flag_type_errors_amended :
    (∀ (ctx : FunctionContext) (a0 v w k : Value),
       isBoolV a0 = false →
       (changedColExec ctx [a0, v, w, k]).1 =
         .ret (.errv (.plain
           ("first arg is not a bool but got " ++ a0.vfmt))) false) ∧
    (∀ (ctx : FunctionContext) (ign : Bool) (v w : Value) (k : String),
       ¬ (ign = true ∧ v = Value.vnull) →
       isBoolV w = false →
       (changedColExec ctx [.vbool ign, v, w, .vstr k]).1 =
         .ret (.errv (.plain
           ("when arg is not a bool but got " ++ w.vfmt))) false) ∧
    (∀ (ctx : FunctionContext) (a0 v w k : Value),
       isBoolV w = false →
       (hadChangedExec ctx [a0, v, w, k]).1 =
         .ret (.errv (.plain
           ("when arg is not a bool but got " ++ w.vfmt))) false) ∧
    (∀ (ctx : FunctionContext) (a0 v k : Value),
       isBoolV a0 = false →
       (hadChangedExec ctx [a0, v, .vbool true, k]).1 =
         .ret (.errv (.plain
           ("first arg is not a bool but got " ++ a0.vfmt))) false) ∧
    (∀ (ctx : FunctionContext) (v w : Value) (k : String),
       ctx.getErr k = none →
       isBoolV w = false →
       (lagExec ctx [v, w, .vstr k]).1 =
         .ret (.errv (.plain
           ("when arg is not a bool but got " ++ w.vfmt))) false) ∧
    (∀ (ctx : FunctionContext) (v d x : Value) (n : Int) (wv : Bool)
       (k : String),
       ctx.getErr k = none →
       isBoolV x = false →
       (lagExec ctx [v, .vint n, d, x, .vbool wv, .vstr k]).1 =
         .ret (.errv (.plain
           ("The fourth arg is not a bool but got " ++ v.vfmt))) false) ∧
    (∀ (ctx : FunctionContext) (v w : Value) (k : String),
       isBoolV w = false →
       (latestExec ctx [v, w, .vstr k]).1 =
         .ret (.errv (.plain
           ("when arg is not a bool but got " ++ w.vfmt))) false) := by
  refine ⟨?_, ?_, ?_, ?_, ?_, ?_, ?_⟩
  · intro ctx a0 v w k h
    cases a0 with
    | vbool b => simp [isBoolV] at h
    | vnull => rfl
    | vint n => rfl
    | vstr s => rfl
  · intro ctx ign v w k hnv hw
    cases w with
    | vbool b => simp [isBoolV] at hw
    | vnull => simp [changedColExec, argFromEnd, hnv]
    | vint n => simp [changedColExec, argFromEnd, hnv]
    | vstr s => simp [changedColExec, argFromEnd, hnv]
  · intro ctx a0 v w k h
    cases w with
    | vbool b => simp [isBoolV] at h
    | vnull => simp [hadChangedExec, argFromEnd]
    | vint n => simp [hadChangedExec, argFromEnd]
    | vstr s => simp [hadChangedExec, argFromEnd]
  · intro ctx a0 v k h
    cases a0 with
    | vbool b => simp [isBoolV] at h
    | vnull => simp [hadChangedExec, argFromEnd]
    | vint n => simp [hadChangedExec, argFromEnd]
    | vstr s => simp [hadChangedExec, argFromEnd]
  · intro ctx v w k hg hw
    cases w with
    | vbool b => simp [isBoolV] at hw
    | vnull => simp [lagExec, argFromEnd, getState, hg]
    | vint n => simp [lagExec, argFromEnd, getState, hg]
    | vstr s => simp [lagExec, argFromEnd, getState, hg]
  · intro ctx v d x n wv k hg hx
    cases x with
    | vbool b => simp [isBoolV] at hx
    | vnull => simp [lagExec, argFromEnd, getState, hg]
    | vint m => simp [lagExec, argFromEnd, getState, hg]
    | vstr s => simp [lagExec, argFromEnd, getState, hg]
  · intro ctx v w k h
    cases w with
    | vbool b => simp [isBoolV] at h
    | vnull => rfl
    | vint n => rfl
    | vstr s => rfl

/-- C5 witness: concrete non-boolean flags hitting each reachable check. -/
theorem c5_flag_type_errors_amended_witness :
    (changedColExec ctxEmpty [.vint 9, .vnull, .vbool true, .vstr "k"]).1 =
      .ret (.errv (.plain "first arg is not a bool but got 9")) false ∧
    (changedColExec ctxEmpty
      [.vbool false, .vint 1, .vint 7, .vstr "k"]).1 =
      .ret (.errv (.plain "when arg is not a bool but got 7")) false ∧
    (hadChangedExec ctxEmpty [.vbool true, .vint 1, .vint 7, .vstr "k"]).1 =
      .ret (.errv (.plain "when arg is not a bool but got 7")) false ∧
    (hadChangedExec ctxEmpty
      [.vint 9, .vint 1, .vbool true, .vstr "k"]).1 =
      .ret (.errv (.plain "first arg is not a bool but got 9")) false ∧
    (lagExec ctxEmpty [.vint 1, .vint 7, .vstr "k"]).1 =
      .ret (.errv (.plain "when arg is not a bool but got 7")) false ∧
    (lagExec ctxEmpty
      [.vint 1, .vint 2, .vint 0, .vstr "x", .vbool true, .vstr "k"]).1 =
      .ret (.errv (.plain "The fourth arg is not a bool but got 1")) false ∧
    (latestExec ctxEmpty [.vint 1, .vint 7, .vstr "k"]).1 =
      .ret (.errv (.plain "when arg is not a bool but got 7")) false := by
  refine ⟨c5_flag_type_errors_amended.1 ctxEmpty (.vint 9) .vnull
      (.vbool true) (.vstr "k") (by decide),
    c5_flag_type_errors_amended.2.1 ctxEmpty false (.vint 1) (.vint 7) "k"
      (by decide) (by decide),
    c5_flag_type_errors_amended.2.2.1 ctxEmpty (.vbool true) (.vint 1)
      (.vint 7) (.vstr "k") (by decide),
    c5_flag_type_errors_amended.2.2.2.1 ctxEmpty (.vint 9) (.vint 1)
      (.vstr "k") (by decide),
    c5_flag_type_errors_amended.2.2.2.2.1 ctxEmpty (.vint 1) (.vint 7) "k"
      rfl (by decide),
    c5_flag_type_errors_amended.2.2.2.2.2.1 ctxEmpty (.vint 1) (.vint 0)
      (.vstr "x") 2 true "k" rfl (by decide),
    c5_flag_type_errors_amended.2.2.2.2.2.2 ctxEmpty (.vint 1) (.vint 7) "k"
      (by decide)⟩

/-- C10: `latest` with validity true and a non-null value returns
`(value, emit = true)` even when the state-store write fails — the
`PutState` error is discarded (the store is then simply left unchanged) —
whereas `changed_col`, `had_changed` and `lag` surface a failing
`PutState` as `(error, emit = false)`. -/
theorem c10_latest_discards_put_error :
    (∀ (ctx : FunctionContext) (v : Value) (k : String),
       v ≠ Value.vnull →
       (latestExec ctx [v, .vbool true, .vstr k]).1 =
         .ret (.rdata v) true) ∧
    (∀ (ctx : FunctionContext) (v : Value) (k m : String),
       v ≠ Value.vnull →
       ctx.putErr k = some m →
       (latestExec ctx [v, .vbool true, .vstr k]).2 = ctx) ∧
    (∀ (ctx : FunctionContext) (w : Value) (k m : String),
       ctx.getErr k = none →
       ctx.putErr k = some m →
       StateEntry.se w ≠ ctx.state k →
       (changedColExec ctx [.vbool false, w, .vbool true, .vstr k]).1 =
         .ret (.errv (.plain m)) false) ∧
    (∀ (ctx : FunctionContext) (w : Value) (k m : String),
       ctx.getErr (k ++ "1") = none →
       ctx.putErr (k ++ "1") = some m →
       StateEntry.se w ≠ ctx.state (k ++ "1") →
       (hadChangedExec ctx [.vbool false, w, .vbool true, .vstr k]).1 =
         .ret (.errv (.plain
           ("error setting state for " ++ (k ++ "1") ++ ": " ++ m))) false) ∧
    (∀ (ctx : FunctionContext) (v : Value) (k m : String),
       ctx.getErr k = none →
       ctx.state k = .se .vnull →
       ctx.putErr k = some m →
       (lagExec ctx [v, .vbool true, .vstr k]).1 =
         .ret (.errv (.plain
           ("error setting state for " ++ k ++ ": " ++ m))) false) := by
  refine ⟨?_, ?_, ?_, ?_, ?_⟩
  · intro ctx v k hv
    simp only [latestExec, argFromEnd]
    simp [putState, hv]
    split <;> rfl
  · intro ctx v k m hv hp
    simp only [latestExec, argFromEnd]
    simp [putState, hv, hp]
  · intro ctx w k m hg hp hne
    simp [changedColExec, argFromEnd, getState, putState, hg, hp, hne]
  · intro ctx w k m hg hp hne
    have h1 : (toString (1 : Nat)) = "1" := rfl
    simp [hadChangedExec, hadChangedLoop, argFromEnd, getState, putState,
      h1, hg, hp, hne]
  · intro ctx v k m hg hs hp
    simp [lagExec, argFromEnd, getState, putState, hg, hs, hp]

/-- A context whose state store is empty and rejects every write. -/
def ctxPutFail : FunctionContext :=
  ⟨fun _ => .se .vnull, fun _ => none, fun _ => some "putfail"⟩

/-- C10 witness: with every write failing, `latest` still returns
`(7, true)` and leaves the context unchanged, while the other three
functions return `(error, false)` on the same failing store. -/
theorem c10_latest_discards_put_error_witness :
    (latestExec ctxPutFail [.vint 7, .vbool true, .vstr "k"]).1 =
      .ret (.rdata (.vint 7)) true ∧
    (latestExec ctxPutFail [.vint 7, .vbool true, .vstr "k"]).2 =
      ctxPutFail ∧
    (changedColExec ctxPutFail
      [.vbool false, .vint 1, .vbool true, .vstr "k"]).1 =
      .ret (.errv (.plain "putfail")) false ∧
    (hadChangedExec ctxPutFail
      [.vbool false, .vint 1, .vbool true, .vstr "k"]).1 =
      .ret (.errv (.plain "error setting state for k1: putfail")) false ∧
    (lagExec ctxPutFail [.vint 1, .vbool true, .vstr "k"]).1 =
      .ret (.errv (.plain "error setting state for k: putfail")) false := by
  refine ⟨c10_latest_discards_put_error.1 ctxPutFail (.vint 7) "k"
      (by decide),
    c10_latest_discards_put_error.2.1 ctxPutFail (.vint 7) "k" "putfail"
      (by decide) rfl,
    c10_latest_discards_put_error.2.2.1 ctxPutFail (.vint 1) "k" "putfail"
      rfl rfl (by decide),
    ?_, ?_⟩
  · have h := c10_latest_discards_put_error.2.2.2.1 ctxPutFail (.vint 1)
      "k" "putfail" rfl rfl (by decide)
    simpa using h
  · exact c10_latest_discards_put_error.2.2.2.2 ctxPutFail (.vint 1) "k"
      "putfail" rfl rfl rfl

/-- Items arriving on the sink node's input channel, as discriminated by
the type switch in `SinkNode.ingest`: error values, watermark tuples,
batch-EOF tuples, EOF tuples (carrying their string content), and all
other data. -/
inductive Item where
  | ierr (e : GoErr)
  | watermark
  | batchEOF
  | eofT (s : String)
  | dataItem (v : Value)
  deriving DecidableEq, Repr

/-- The fields of `SinkNode` that `ingest` reads or writes: the
send-errors-downstream configuration, the EOF limit and counter, and the
control channel fed through the error drain. -/
structure SinkState where
  sendError : Bool
  eoflimit : Nat
  currentEof : Nat
  ctrlCh : ErrChannel
  deriving DecidableEq, Repr

/-- `SinkNode.ingest` from `sink_node.go`: classifies an incoming item,
returning `(data, processed)` — `processed = true` means the item is
consumed here and never reaches collection. Modelled from the spec for the
preprocessing hook only: `preprocess` lives in the framework's
`defaultSinkNode`, which is not among the sources, and the spec's ingest
description (§4.5 step 3) assigns it no behaviour, so it is a
pass-through here; the classification switch is translated from the
source. -/
def ingest (st : SinkState) (item : Item) : (Option Item × Bool) × SinkState :=
  match item with
  | .ierr _ =>
      if st.sendError then ((some item, false), st) else ((none, true), st)
  | .watermark => ((none, true), st)
  | .batchEOF => ((none, true), st)
  | .eofT d =>
      let st1 := { st with currentEof := st.currentEof + 1 }
      let st2 :=
        if st1.eoflimit = st1.currentEof then
          { st1 with
            ctrlCh := (drainError true (some (.eofErr d)) st1.ctrlCh).2 }
        else st1
      ((none, true), st2)
  | .dataItem _ => ((some item, false), st)

/-- C8: `ingest` classifies every incoming item as the spec describes:
error items pass to collection iff the node surfaces errors downstream,
watermark and batch-EOF markers are always dropped, an EOF marker is
dropped after incrementing the counter — raising the specialized EOF error
through the error drain exactly when the counter reaches the limit — and
every other item passes through unchanged. -/
theorem c8_ingest_classification :
    (∀ (st : SinkState) (e : GoErr), st.sendError = true →
       ingest st (.ierr e) = ((some (.ierr e), false), st)) ∧
    (∀ (st : SinkState) (e : GoErr), st.sendError = false →
       ingest st (.ierr e) = ((none, true), st)) ∧
    (∀ st : SinkState, ingest st .watermark = ((none, true), st)) ∧
    (∀ st : SinkState, ingest st .batchEOF = ((none, true), st)) ∧
    (∀ (st : SinkState) (d : String),
       (ingest st (.eofT d)).1 = (none, true) ∧
       (ingest st (.eofT d)).2.currentEof = st.currentEof + 1 ∧
       (ingest st (.eofT d)).2.ctrlCh =
         (if st.eoflimit = st.currentEof + 1 then
            trySend st.ctrlCh (some (.eofErr d))
          else st.ctrlCh)) ∧
    (∀ (st : SinkState) (v : Value),
       ingest st (.dataItem v) = ((some (.dataItem v), false), st)) := by
  refine ⟨?_, ?_, fun st => rfl, fun st => rfl, ?_, fun st v => rfl⟩
  · intro st e h
    simp [ingest, h]
  · intro st e h
    simp [ingest, h]
  · intro st d
    refine ⟨rfl, ?_, ?_⟩
    · simp only [ingest]
      split <;> rfl
    · simp only [ingest, drainError]
      split <;> rfl

/-- C8 witness: a node one EOF short of its limit raises the EOF error on
its (empty, one-slot) control channel when the marker arrives, and a node
configured not to surface errors drops an error item. -/
theorem c8_ingest_classification_witness :
    ingest ⟨false, 2, 1, ⟨1, []⟩⟩ (.eofT "done") =
      ((none, true), ⟨false, 2, 2, ⟨1, [some (.eofErr "done")]⟩⟩) ∧
    ingest ⟨false, 2, 1, ⟨1, []⟩⟩ (.ierr (.plain "boom")) =
      ((none, true), ⟨false, 2, 1, ⟨1, []⟩⟩) := by
  constructor
  · have h := (c8_ingest_classification.2.2.2.2.1 ⟨false, 2, 1, ⟨1, []⟩⟩
      "done")
    have h1 := h.1
    have h2 := h.2.1
    have h3 := h.2.2
    simp only [if_pos rfl] at h3
    have hse : (ingest ⟨false, 2, 1, ⟨1, []⟩⟩ (.eofT "done")).2.sendError =
        false := by decide
    have hel : (ingest ⟨false, 2, 1, ⟨1, []⟩⟩ (.eofT "done")).2.eoflimit =
        2 := by decide
    refine Prod.ext h1 ?_
    have : (ingest ⟨false, 2, 1, ⟨1, []⟩⟩ (.eofT "done")).2 =
        ⟨false, 2, 2, ⟨1, [some (.eofErr "done")]⟩⟩ := by
      cases hst : (ingest ⟨false, 2, 1, ⟨1, []⟩⟩ (.eofT "done")).2
      simp only [hst] at hse hel h2 h3
      simp_all [trySend]
    exact this
  · exact c8_ingest_classification.2.1 ⟨false, 2, 1, ⟨1, []⟩⟩
      (.plain "boom") rfl

/-- One outcome of the blocking select inside the sink node's retry loop:
the cancellation signal fired, or the interval ticker ticked and
`doCollect` was re-invoked with the given result. -/
inductive RetryEv where
  | done
  | tick (res : Option GoErr)
  deriving DecidableEq, Repr

/-- Fate of one record in the sink node's execution loop. -/
inductive CollectFate where
  | sent
  | droppedNonIo
  | droppedNoRetry
  | cancelled
  | stillRetrying
  deriving DecidableEq, Repr

/-- The retry loop of `SinkNode.Exec` (configuration: positive resend
interval, no resend channel), entered with the current collect error:
`for err != nil && errorx.IsIOError(err)` waits on the select; on
cancellation the whole goroutine returns, on a ticker tick `doCollect`
runs again. Exiting with a nil error is a successful send, exiting with a
non-IO error is a drop. `evs` is the (finite window of the) sequence of
select outcomes; `stillRetrying` means the loop is still waiting when the
window ends. -/
def retryLoop : Option GoErr → List RetryEv → CollectFate
  | none, _ => .sent
  | some e, evs =>
    if isIOError e then
      match evs with
      | [] => .stillRetrying
      | .done :: _ => .cancelled
      | .tick r :: rest => retryLoop r rest
    else .droppedNonIo

/-- Handling of one record after `doCollect`, in the configuration with no
resend channel: success sends; a failure retries when the resend interval
is positive and is otherwise dropped after reporting (the default
fire-and-forget policy). -/
def processRecord (resendIntervalPos : Bool) (res : Option GoErr)
    (evs : List RetryEv) : CollectFate :=
  match res with
  | none => .sent
  | some e => if resendIntervalPos then retryLoop (some e) evs else
      .droppedNoRetry

/-- The sink node's per-record execution loop over its buffered input
(no resend channel configured): each record comes with its initial
`doCollect` result and its retry-select outcomes; a cancellation during
retry returns from the goroutine, so the remaining records are never
processed. -/
def execLoop (resendIntervalPos : Bool) :
    List (Option GoErr × List RetryEv) → List CollectFate
  | [] => []
  | (res, evs) :: rest =>
    match processRecord resendIntervalPos res evs with
    | .cancelled => [.cancelled]
    | f => f :: execLoop resendIntervalPos rest

/-- C7: under a positive resend interval with no resend side-channel, a
non-I/O-class collection failure is dropped with no retry (independent of
any later events); an I/O-class failure retries on each tick — exiting
with success when collect succeeds, dropping when the error stops being
I/O-class, re-entering the loop while it stays I/O-class — and exits on
cancellation; a cancellation during retry terminates the whole execution
loop, so no record after the cancelled one is processed. -/
theorem c7_sink_retry :
    (∀ (e : GoErr) (evs : List RetryEv), isIOError e = false →
       retryLoop (some e) evs = .droppedNonIo) ∧
    (∀ (e : GoErr) (rest : List RetryEv), isIOError e = true →
       retryLoop (some e) (.tick none :: rest) = .sent) ∧
    (∀ (e r : GoErr) (rest : List RetryEv), isIOError e = true →
       retryLoop (some e) (.tick (some r) :: rest) =
         retryLoop (some r) rest) ∧
    (∀ (e r : GoErr) (rest : List RetryEv), isIOError e = true →
       isIOError r = false →
       retryLoop (some e) (.tick (some r) :: rest) = .droppedNonIo) ∧
    (∀ (e : GoErr) (rest : List RetryEv), isIOError e = true →
       retryLoop (some e) (.done :: rest) = .cancelled) ∧
    (∀ (res : Option GoErr) (evs : List RetryEv)
       (rest : List (Option GoErr × List RetryEv)),
       processRecord true res evs = .cancelled →
       execLoop true ((res, evs) :: rest) = [.cancelled]) := by
  refine ⟨?_, ?_, ?_, ?_, ?_, ?_⟩
  · intro e evs h
    cases evs with
    | nil => simp [retryLoop, h]
    | cons ev rest =>
      cases ev with
      | done => simp [retryLoop, h]
      | tick r => simp [retryLoop, h]
  · intro e rest h
    simp [retryLoop, h]
  · intro e r rest h
    simp [retryLoop, h]
  · intro e r rest he hr
    rw [show retryLoop (some e) (.tick (some r) :: rest) =
      retryLoop (some r) rest by simp [retryLoop, he]]
    cases rest with
    | nil => simp [retryLoop, hr]
    | cons ev rest2 =>
      cases ev with
      | done => simp [retryLoop, hr]
      | tick r2 => simp [retryLoop, hr]
  · intro e rest h
    simp [retryLoop, h]
  · intro res evs rest h
    simp [execLoop, h]

/-- C7 witness: concrete runs — a non-IO failure dropped regardless of
pending ticks; an IO failure that succeeds on the first tick; one that
turns non-IO on a tick; a cancellation that ends a two-record loop with
the second record unprocessed. -/
theorem c7_sink_retry_witness :
    retryLoop (some (.plain "bad")) [.tick none] = .droppedNonIo ∧
    retryLoop (some (.ioErr "io")) [.tick none] = .sent ∧
    retryLoop (some (.ioErr "io")) [.tick (some (.plain "bad"))] =
      .droppedNonIo ∧
    retryLoop (some (.ioErr "io")) [.done] = .cancelled ∧
    execLoop true
      [(some (.ioErr "io"), [.done]), (none, [])] = [.cancelled] := by
  refine ⟨c7_sink_retry.1 (.plain "bad") [.tick none] rfl,
    c7_sink_retry.2.1 (.ioErr "io") [] rfl,
    c7_sink_retry.2.2.2.1 (.ioErr "io") (.plain "bad") [] rfl rfl,
    c7_sink_retry.2.2.2.2.1 (.ioErr "io") [] rfl,
    c7_sink_retry.2.2.2.2.2 (some (.ioErr "io")) [.done]
      [(none, [])] (by decide)⟩

/-- A Go `chan any` carrying records to the resend sink. -/
structure ValChan where
  vcap : Nat
  vbuf : List Value
  deriving DecidableEq, Repr

/-- The send callback `SinkNode.Exec` passes to `BroadcastCustomized` on a
collection failure with a configured resend channel: a three-way select —
send the record to the resend output, drop it when cancellation has fired,
or (only when no other case is ready) take the default branch and report a
buffer-full error. Go picks randomly among ready cases, so `oracle`
resolves the choice when both the send and the cancellation are ready.
Modelled from the spec for the broadcast itself: `BroadcastCustomized`
lives in the framework's `defaultNode`, not among the sources; per §4.5 it
"broadcasts the failed record to the resend output", i.e. applies this
callback to the record. -/
def resendSelect (oracle done : Bool) (name : String) (ch : ValChan)
    (v : Value) : ValChan × Option GoErr :=
  let canSend := ch.vbuf.length < ch.vcap
  if canSend ∧ done then
    if oracle then ({ ch with vbuf := ch.vbuf ++ [v] }, none)
    else (ch, none)
  else if canSend then ({ ch with vbuf := ch.vbuf ++ [v] }, none)
  else if done then (ch, none)
  else (ch, some (.plain
    ("buffer full, drop message from " ++ name ++ " to resend sink")))

/-- C9 counterexample: with the resend channel full AND cancellation
already fired, the select takes the cancellation case: the record is
dropped with NO buffer-full error, refuting the claim that a full channel
with no ready receiver always reports a buffer-full error. -/
theorem c9_resend_counterexample :
    (resendSelect true true "mqtt" ⟨0, []⟩ (.vint 1)).2 = none ∧
    (resendSelect true true "mqtt" ⟨0, []⟩ (.vint 1)).1 = ⟨0, []⟩ := by
  refine ⟨by decide, by decide⟩

/-- C9 (amended): the broadcast to the resend output is a non-blocking
attempt; when the channel is full, no receiver is ready, and cancellation
has NOT fired, the record is dropped and a buffer-full error is reported;
when cancellation has fired the record is dropped silently; when the
channel has room (and cancellation has not fired) the record is delivered
without error. The main loop is never blocked: every case returns
immediately. -/
theorem c9_resend_buffer_full_amended :
    (∀ (o : Bool) (name : String) (ch : ValChan) (v : Value),
       ch.vcap ≤ ch.vbuf.length →
       resendSelect o false name ch v =
         (ch, some (.plain ("buffer full, drop message from " ++ name ++
           " to resend sink")))) ∧
    (∀ (o : Bool) (name : String) (ch : ValChan) (v : Value),
       ch.vcap ≤ ch.vbuf.length →
       resendSelect o true name ch v = (ch, none)) ∧
    (∀ (o : Bool) (name : String) (ch : ValChan) (v : Value),
       ch.vbuf.length < ch.vcap →
       resendSelect o false name ch v =
         ({ ch with vbuf := ch.vbuf ++ [v] }, none)) := by
  refine ⟨?_, ?_, ?_⟩
  · intro o name ch v h
    have hns : ¬ ch.vbuf.length < ch.vcap := Nat.not_lt.mpr h
    simp [resendSelect, hns]
  · intro o name ch v h
    have hns : ¬ ch.vbuf.length < ch.vcap := Nat.not_lt.mpr h
    simp [resendSelect, hns]
  · intro o name ch v h
    simp [resendSelect, h]

/-- C9 witness: the amended behaviour at concrete channels — full channel
without cancellation reports buffer-full; full channel with cancellation
drops silently; free slot delivers the record. -/
theorem c9_resend_buffer_full_amended_witness :
    resendSelect false false "mqtt" ⟨0, []⟩ (.vint 1) =
      (⟨0, []⟩, some (.plain
        "buffer full, drop message from mqtt to resend sink")) ∧
    resendSelect false true "mqtt" ⟨0, []⟩ (.vint 1) = (⟨0, []⟩, none) ∧
    resendSelect false false "mqtt" ⟨1, []⟩ (.vint 1) =
      (⟨1, [.vint 1]⟩, none) := by
  refine ⟨?_, c9_resend_buffer_full_amended.2.1 false "mqtt" ⟨0, []⟩
      (.vint 1) (by decide),
    ?_⟩
  · have h := c9_resend_buffer_full_amended.1 false "mqtt" ⟨0, []⟩
      (.vint 1) (by decide)
    simpa using h
  · have h := c9_resend_buffer_full_amended.2.2 false "mqtt" ⟨1, []⟩
      (.vint 1) (by decide)
    simpa using h
